import Mathlib

/-!
Verification development for the pt_checkin repository.

The Python sources are shallowly embedded: dictionaries become association
lists, mutation becomes explicit state passing, exceptions become explicit
outcome constructors, `datetime.now()` and the regex engine become explicit
parameters.  Each embedded definition carries a comment naming the source
function it models.
-/

/-! ## Python dictionaries

A Python `dict` is modelled as an association list whose keys are unique.
`dset` mirrors `d[k] = v` (replace the existing binding in place, else
append), `dget` mirrors `d.get(k)`, `ddel` mirrors `del d[k]`. -/

/-- Association-list model of a Python dict. -/
abbrev Dict (α β : Type) : Type := List (α × β)

/-- Lookup, mirroring Python `d.get(k)` (None when the key is absent). -/
def dget {α β : Type} [BEq α] (d : Dict α β) (k : α) : Option β :=
  match List.find? (fun p => p.1 == k) d with
  | some p => some p.2
  | none => none

/-- Assignment `d[k] = v`: replace the first binding of `k`, else append. -/
def dset {α β : Type} [BEq α] (d : Dict α β) (k : α) (v : β) : Dict α β :=
  match d with
  | [] => [(k, v)]
  | p :: rest => if p.1 == k then (k, v) :: rest else p :: dset rest k v

/-- Deletion `del d[k]`: remove the first binding of `k`. -/
def ddel {α β : Type} [BEq α] (d : Dict α β) (k : α) : Dict α β :=
  match d with
  | [] => []
  | p :: rest => if p.1 == k then rest else p :: ddel rest k

/-- Number of bindings a key has (1 for keys of a well-formed dict). -/
def keyCount {α β : Type} [BEq α] (d : Dict α β) (k : α) : Nat :=
  (List.filter (fun p => p.1 == k) d).length

/-- Well-formedness of the dict model: no key is bound twice, which Python
dicts guarantee by construction. -/
def DictWF {α β : Type} [BEq α] (d : Dict α β) : Prop :=
  ∀ k : α, keyCount d k ≤ 1

theorem dget_dset_self {α β : Type} [BEq α] [LawfulBEq α]
    (d : Dict α β) (k : α) (v : β) : dget (dset d k v) k = some v := by
  induction d with
  | nil => simp [dget, dset, List.find?]
  | cons p rest ih =>
    by_cases h : p.1 == k
    · simp [dset, h, dget, List.find?]
    · simp only [dset, h, if_false]
      simp only [dget, List.find?, h] at ih ⊢
      exact ih

theorem keyCount_cons {α β : Type} [BEq α] (p : α × β) (rest : Dict α β) (k : α) :
    keyCount (p :: rest) k = (if p.1 == k then 1 else 0) + keyCount rest k := by
  by_cases h : p.1 == k
  · simp [keyCount, List.filter_cons, h, Nat.add_comm]
  · simp [keyCount, List.filter_cons, h]

theorem DictWF_of_cons {α β : Type} [BEq α] (p : α × β) (rest : Dict α β)
    (hwf : DictWF (p :: rest)) : DictWF rest := by
  intro k
  have h := hwf k
  rw [keyCount_cons] at h
  omega

theorem keyCount_dset_self {α β : Type} [BEq α] [LawfulBEq α]
    (d : Dict α β) (k : α) (v : β) (hwf : DictWF d) :
    keyCount (dset d k v) k = 1 := by
  induction d with
  | nil => simp [dset, keyCount, List.filter]
  | cons p rest ih =>
    by_cases h : p.1 == k
    · have hk := hwf k
      rw [keyCount_cons, if_pos h] at hk
      have hrest : keyCount rest k = 0 := by omega
      simp [dset, h, keyCount_cons, hrest]
    · rw [dset, if_neg h, keyCount_cons, if_neg h,
        ih (DictWF_of_cons p rest hwf)]

theorem keyCount_dset_ne {α β : Type} [BEq α] [LawfulBEq α]
    (d : Dict α β) (k k' : α) (v : β) (hne : (k == k') = false) :
    keyCount (dset d k v) k' = keyCount d k' := by
  induction d with
  | nil => simp [dset, keyCount, List.filter, hne]
  | cons p rest ih =>
    by_cases h : p.1 == k
    · have h1 : p.1 = k := by simpa using h
      rw [dset, if_pos h, keyCount_cons, keyCount_cons, h1]
    · rw [dset, if_neg h, keyCount_cons, keyCount_cons, ih]

theorem DictWF_dset {α β : Type} [BEq α] [LawfulBEq α]
    (d : Dict α β) (k : α) (v : β) (hwf : DictWF d) : DictWF (dset d k v) := by
  intro k'
  by_cases h : k == k'
  · have h1 : k = k' := by simpa using h
    subst h1
    rw [keyCount_dset_self d k v hwf]
  · rw [keyCount_dset_ne d k k' v (by simpa using h)]
    exact hwf k'

/-! ## Python enum members

The repository defines `NetworkState` twice: once in
`pt_checkin/base/request.py` (its own `Enum` class) and once in
`pt_checkin/utils/common_utils.py`, alongside `SignState`.  Python enum
members compare by identity: members of two distinct `Enum` classes are
never equal, even when their names and values coincide.  We therefore model
an enum member as (class, member name, value) and Python `==` as equality of
class and member name. -/

/-- A Python enum member: its enum class, its member name and its value. -/
structure PyEnumMember where
  cls : String
  name : String
  val : String
deriving DecidableEq, Repr

/-- Python `==` on enum members: identity, i.e. same enum class and same
member name.  Members of distinct enum classes are never equal. -/
def pyEnumEq (a b : PyEnumMember) : Bool :=
  a.cls == b.cls && a.name == b.name

/-- Enum class name of `NetworkState` as defined in `base/request.py`. -/
def reqNSCls : String := "pt_checkin.base.request.NetworkState"

/-- Enum class name of `NetworkState` as defined in `utils/common_utils.py`. -/
def cuNSCls : String := "pt_checkin.utils.common_utils.NetworkState"

/-- Enum class name of `SignState` as defined in `utils/common_utils.py`. -/
def cuSSCls : String := "pt_checkin.utils.common_utils.SignState"

/-- Member SUCCEED of request.py's NetworkState. -/
def reqNS_SUCCEED : PyEnumMember := ⟨reqNSCls, "SUCCEED", "Succeed"⟩

/-- Member URL_REDIRECT of request.py's NetworkState. -/
def reqNS_URL_REDIRECT : PyEnumMember :=
  ⟨reqNSCls, "URL_REDIRECT", "Url: \x7boriginal_url\x7d redirect to \x7bredirect_url\x7d"⟩

/-- Member NETWORK_ERROR of request.py's NetworkState. -/
def reqNS_NETWORK_ERROR : PyEnumMember :=
  ⟨reqNSCls, "NETWORK_ERROR", "Network error: url: \x7burl\x7d, error: \x7berror\x7d"⟩

/-- Member SUCCEED of common_utils' NetworkState. -/
def cuNS_SUCCEED : PyEnumMember := ⟨cuNSCls, "SUCCEED", "Succeed"⟩

/-- Member NETWORK_ERROR of common_utils' NetworkState. -/
def cuNS_NETWORK_ERROR : PyEnumMember :=
  ⟨cuNSCls, "NETWORK_ERROR", "Network error: url: \x7burl\x7d, error: \x7berror\x7d"⟩

/-- Member MAINTENANCE of common_utils' NetworkState. -/
def cuNS_MAINTENANCE : PyEnumMember :=
  ⟨cuNSCls, "MAINTENANCE", "Site under maintenance: \x7burl\x7d"⟩

/-- Member DDOS_PROTECTION_BY_CLOUDFLARE of common_utils' NetworkState. -/
def cuNS_DDOS_PROTECTION_BY_CLOUDFLARE : PyEnumMember :=
  ⟨cuNSCls, "DDOS_PROTECTION_BY_CLOUDFLARE", "DDoS protection by .+?Cloudflare"⟩

/-- Member SERVER_LOAD_TOO_HIGH of common_utils' NetworkState (value
abbreviated to its first alternative; only searched, never compared). -/
def cuNS_SERVER_LOAD_TOO_HIGH : PyEnumMember :=
  ⟨cuNSCls, "SERVER_LOAD_TOO_HIGH",
    "<h3 align=center>(服务器负载过|伺服器負載過)高，正在重(试|試)，(请|請)稍(后|後)\\.\\.\\.</h3>"⟩

/-- Member CONNECTION_TIMED_OUT of common_utils' NetworkState. -/
def cuNS_CONNECTION_TIMED_OUT : PyEnumMember :=
  ⟨cuNSCls, "CONNECTION_TIMED_OUT",
    "<h2 class=\"text-gray-600 leading-1\\.3 text-3xl font-light\">Connection timed out</h2>"⟩

/-- Member THE_WEB_SERVER_REPORTED_A_BAD_GATEWAY_ERROR of common_utils'
NetworkState. -/
def cuNS_BAD_GATEWAY : PyEnumMember :=
  ⟨cuNSCls, "THE_WEB_SERVER_REPORTED_A_BAD_GATEWAY_ERROR",
    "<p>The web server reported a bad gateway error\\.</p>"⟩

/-- Member WEB_SERVER_IS_DOWN of common_utils' NetworkState.  Its value is a
regex alternation whose branches include the maintenance-page phrases. -/
def cuNS_WEB_SERVER_IS_DOWN : PyEnumMember :=
  ⟨cuNSCls, "WEB_SERVER_IS_DOWN",
    "站点关闭维护中，请稍后再访问...谢谢|站點關閉維護中，請稍後再訪問...謝謝|Web server is down"⟩

/-- Member INCORRECT_CSRF_TOKEN of common_utils' NetworkState. -/
def cuNS_INCORRECT_CSRF_TOKEN : PyEnumMember :=
  ⟨cuNSCls, "INCORRECT_CSRF_TOKEN", "Incorrect CSRF token"⟩

/-- Member NO_SIGN_IN of common_utils' SignState. -/
def ssNO_SIGN_IN : PyEnumMember := ⟨cuSSCls, "NO_SIGN_IN", "No sign in"⟩

/-- Member SUCCEED of common_utils' SignState. -/
def ssSUCCEED : PyEnumMember := ⟨cuSSCls, "SUCCEED", "Succeed"⟩

/-- Member WRONG_ANSWER of common_utils' SignState. -/
def ssWRONG_ANSWER : PyEnumMember := ⟨cuSSCls, "WRONG_ANSWER", "Wrong answer"⟩

/-- Member SIGN_IN_FAILED of common_utils' SignState. -/
def ssSIGN_IN_FAILED : PyEnumMember := ⟨cuSSCls, "SIGN_IN_FAILED", "Sign in failed, \x7b\x7d"⟩

/-! ## Task Context: SignInEntry (core/entry.py)

The entry's `data` dict is modelled with string values (the keys the
embedded code reads hold strings).  The attribute `_error_type`, which
`fail` creates on first write, is an `Option` (absent reads as "general"
via `getattr`-with-default).  `last_date()` reads a backup file from disk;
the string it would return is carried as the field `lastDateOnDisk`. -/

/-- State of one `SignInEntry` (core/entry.py). -/
structure SignInEntry where
  data : Dict String String
  failed : Bool := false
  reason : String := ""
  errorType : Option String := none
  lastDateOnDisk : String := ""
deriving Repr

/-- Embeds `SignInEntry.get(key, default)`. -/
def SignInEntry.get (e : SignInEntry) (key : String) (default : String := "") :
    String :=
  (dget e.data key).getD default

/-- Embeds `entry[key] = value`. -/
def SignInEntry.set (e : SignInEntry) (key : String) (v : String) : SignInEntry :=
  { e with data := dset e.data key v }

/-- The error-priority table of `SignInEntry.fail`:
connectivity 3, authentication 2, general 1; `dict.get(error_type, 1)`
makes every unknown category 1. -/
def error_priority (t : String) : Nat :=
  if t == "connectivity" then 3
  else if t == "authentication" then 2
  else if t == "general" then 1
  else 1

/-- Embeds `SignInEntry.fail(reason, error_type='general')`: always marks
the entry failed; overwrites the stored reason and category exactly when
the new category's priority is ≥ the stored one (absent stored category
reads as 'general'). -/
def SignInEntry.fail (e : SignInEntry) (reason : String)
    (error_type : String := "general") : SignInEntry :=
  let current_priority := error_priority error_type
  let existing_priority := error_priority (e.errorType.getD "general")
  if current_priority ≥ existing_priority then
    { e with failed := true, reason := reason, errorType := some error_type }
  else
    { e with failed := true }

/-- Embeds `SignInEntry.fail_with_prefix(reason, error_type='general')`:
formats the reason with the entry's `prefix` field and the last-success
date read from the cookies-backup file, then delegates to `fail`. -/
def SignInEntry.failPrefixed (e : SignInEntry) (reason : String)
    (error_type : String := "general") : SignInEntry :=
  let pre := SignInEntry.get e "prefix"
  let last_date := e.lastDateOnDisk
  let full_reason :=
    if pre ≠ "" then pre ++ "=> " ++ reason ++ ". (" ++ last_date ++ ")"
    else reason ++ ". (" ++ last_date ++ ")"
  SignInEntry.fail e full_reason error_type

/-! ## Responses, Steps and the regex engine

`Work` (base/work.py is referenced but its defining file is not present in
the snapshot) is the Step record; its fields are exactly those the embedded
functions read: `url`, `response_urls` (allow-list), `succeed_regex`
(entries are either a pattern string or a pattern/group-index pair),
`fail_regex`, `assert_state`.  `re.search`/`re.sub` are modelled by an
explicit engine parameter: `search pat content` returns the match's groups
(group index to matched text) when the pattern matches. -/

/-- Decoded HTTP response, the fields read by the embedded code. -/
structure PyResponse where
  url : String
  status_code : Nat := 200
  text : String := ""
deriving DecidableEq, Repr

/-- One entry of `Work.succeed_regex`: a bare pattern or (pattern, group). -/
inductive SucceedRegex where
  | plain (r : String)
  | grouped (r : String) (idx : Nat)
deriving DecidableEq, Repr

/-- The Step record (`Work`), restricted to the fields the embedded
functions read.  `assert_state` keeps only the expected state: its
check-method half is consulted by the workflow runner, not by the
classifier, and in `check_sign_in_state` the expected state only guards a
log line. -/
structure Work where
  url : String := ""
  response_urls : List String := []
  succeed_regex : List SucceedRegex := []
  fail_regex : Option String := none
  assert_state : Option PyEnumMember := none
  is_base_content : Bool := false

/-- Model of Python's `re` module: `search` returns the match groups when
the pattern matches, `sub` replaces occurrences of the pattern. -/
structure RegexEngine where
  search : String → String → Option (Nat → String)
  sub : String → String → String → String

/-- The `param` union `Work | str | list[str]` of `check_network_state`. -/
inductive CNSParam where
  | ofWork (w : Work)
  | ofStr (s : String)
  | ofList (l : List String)

/-- The allow-list extracted from a `CNSParam` (lines 75-79 of request.py). -/
def cnsUrls (param : CNSParam) : List String :=
  match param with
  | .ofWork w => w.response_urls
  | .ofStr s => [s]
  | .ofList l => l

/-- Embeds `check_network_state` (base/request.py, lines 69-87).  Returns
the classification together with the updated entry.  The failure messages
inline the `.format` calls of the source; `urls[0]` is modelled with
`headD` (Python would raise IndexError on an empty allow-list, which no
caller produces). -/
def check_network_state (entry : SignInEntry) (param : CNSParam)
    (response : Option PyResponse) (content : Option String := none)
    (check_content : Bool := false) : PyEnumMember × SignInEntry :=
  let urls := cnsUrls param
  match response with
  | none =>
      (reqNS_NETWORK_ERROR, SignInEntry.failPrefixed entry
        ("Network error: url: " ++ urls.headD "" ++ ", error: Response is None"))
  | some r =>
      if check_content && content.isNone then
        (reqNS_NETWORK_ERROR, SignInEntry.failPrefixed entry
          ("Network error: url: " ++ urls.headD "" ++ ", error: Response is None"))
      else if !(urls.contains r.url) then
        (reqNS_URL_REDIRECT, SignInEntry.failPrefixed entry
          ("Url: " ++ urls.headD "" ++ " redirect to " ++ r.url))
      else
        (reqNS_SUCCEED, entry)

/-- The fixed transient-error catalog of `check_sign_in_state`
(sign_in.py, lines 60-67). -/
def network_error_patterns : List PyEnumMember :=
  [cuNS_DDOS_PROTECTION_BY_CLOUDFLARE, cuNS_SERVER_LOAD_TOO_HIGH,
   cuNS_CONNECTION_TIMED_OUT, cuNS_BAD_GATEWAY, cuNS_WEB_SERVER_IS_DOWN,
   cuNS_INCORRECT_CSRF_TOKEN]

/-- The success-pattern loop (sign_in.py, lines 46-56): first matching
pattern wins; a bare string pattern uses group 0. -/
def find_succeed_match (re : RegexEngine) (content : String) :
    List SucceedRegex → Option String
  | [] => none
  | sr :: rest =>
      let pg := match sr with
        | .plain r => (r, 0)
        | .grouped r i => (r, i)
      match RegexEngine.search re pg.1 content with
      | some groups => some (groups pg.2)
      | none => find_succeed_match re content rest

/-- First member of the transient-error catalog whose pattern matches
(sign_in.py, lines 69-76). -/
def find_network_error (re : RegexEngine) (content : String) :
    List PyEnumMember → Option PyEnumMember
  | [] => none
  | p :: rest =>
      if (RegexEngine.search re p.val content).isSome then some p
      else find_network_error re content rest

/-- Model of Python `str.title()` applied to enum member names in the
transient-error failure message. -/
def pyTitleAux : List Char → Bool → List Char
  | [], _ => []
  | c :: cs, prevAlpha =>
      (if c.isAlpha then (if prevAlpha then c.toLower else c.toUpper) else c)
        :: pyTitleAux cs c.isAlpha

/-- Python `str.title()`. -/
def pyTitle (s : String) : String := ⟨pyTitleAux s.data false⟩

/-- The tag-stripping `re.sub("<.*?>|&shy;|&nbsp;", "", msg)` of the
success branch. -/
def strip_html (re : RegexEngine) (s : String) : String :=
  RegexEngine.sub re "<.*?>|&shy;|&nbsp;" "" s

/-- The tail of `check_sign_in_state` after the success-pattern loop found
no match: failure pattern, then the transient-error catalog, then
NO_SIGN_IN (sign_in.py, lines 57-79; the final branch only logs a
warning when `assert_state` expects something else).  An empty
`fail_regex` string is falsy in Python, hence the emptiness test. -/
def sign_in_state_tail (re : RegexEngine) (entry : SignInEntry) (work : Work)
    (c : String) : PyEnumMember × SignInEntry :=
  match work.fail_regex with
  | some fr =>
      if fr ≠ "" ∧ (RegexEngine.search re fr c).isSome then (ssWRONG_ANSWER, entry)
      else
        match find_network_error re c network_error_patterns with
        | some pat =>
            (cuNS_NETWORK_ERROR, SignInEntry.failPrefixed entry
              ("Network error: url: " ++ work.url ++ ", error: " ++ pyTitle pat.name))
        | none => (ssNO_SIGN_IN, entry)
  | none =>
      match find_network_error re c network_error_patterns with
      | some pat =>
          (cuNS_NETWORK_ERROR, SignInEntry.failPrefixed entry
            ("Network error: url: " ++ work.url ++ ", error: " ++ pyTitle pat.name))
      | none => (ssNO_SIGN_IN, entry)

/-- Embeds `check_sign_in_state` (base/sign_in.py, lines 31-79).  NOTE the
guard: the source compares the result of `check_network_state` — a member
of the `NetworkState` enum CLASS DEFINED IN request.py — against
`NetworkState.SUCCEED` imported from utils/common_utils.py, a different
enum class; Python enum members of distinct classes are never equal, so
the guard `!= NetworkState.SUCCEED` holds for every network state and the
function returns the network state unconditionally (the content
inspection below the guard is unreachable).  `content` is used via
`getD ""` past the guard: the source would raise TypeError on None there,
and the guard already returns NETWORK_ERROR when content is None. -/
def check_sign_in_state (re : RegexEngine) (entry : SignInEntry) (work : Work)
    (response : Option PyResponse) (content : Option String) :
    PyEnumMember × SignInEntry :=
  let ns := check_network_state entry (.ofWork work) response content true
  if !(pyEnumEq ns.1 cuNS_SUCCEED) then ns
  else
    let entry1 := ns.2
    let c := content.getD ""
    match work.succeed_regex with
    | [] =>
        (ssSUCCEED, SignInEntry.set entry1 "result"
          (ssSUCCEED.val ++ SignInEntry.get entry1 "extra_msg"))
    | _ :: _ =>
        match find_succeed_match re c work.succeed_regex with
        | some msg =>
            (ssSUCCEED, SignInEntry.set entry1 "result"
              (strip_html re msg ++ SignInEntry.get entry1 "result"
                ++ SignInEntry.get entry1 "extra_msg"))
        | none => sign_in_state_tail re entry1 work c

/-- Embeds `check_final_state` (base/sign_in.py, lines 82-93): promote
NO_SIGN_IN to SIGN_IN_FAILED (failing the entry), pass everything else
through. -/
def check_final_state (re : RegexEngine) (entry : SignInEntry) (work : Work)
    (response : Option PyResponse) (content : Option String) :
    PyEnumMember × SignInEntry :=
  let s := check_sign_in_state re entry work response content
  if pyEnumEq s.1 ssNO_SIGN_IN then
    (ssSIGN_IN_FAILED, SignInEntry.failPrefixed s.2 "Sign in failed, no sign in")
  else s

theorem check_network_state_cls (entry : SignInEntry) (param : CNSParam)
    (response : Option PyResponse) (content : Option String)
    (check_content : Bool) :
    (check_network_state entry param response content check_content).1.cls
      = reqNSCls := by
  unfold check_network_state
  cases response with
  | none => rfl
  | some r =>
    by_cases h1 : check_content && content.isNone
    · simp only [h1, if_true]; rfl
    · simp only [h1, if_false]
      by_cases h2 : (cnsUrls param).contains r.url
      · simp only [h2, Bool.not_true, if_false]; rfl
      · simp only [h2, Bool.not_false, if_true]; rfl

theorem pyEnumEq_reqCls_cuNS_SUCCEED (x : PyEnumMember) (h : x.cls = reqNSCls) :
    pyEnumEq x cuNS_SUCCEED = false := by
  simp only [pyEnumEq, h, cuNS_SUCCEED, reqNSCls, Bool.and_eq_false_iff]
  left
  decide

theorem check_sign_in_state_collapse (re : RegexEngine) (entry : SignInEntry)
    (work : Work) (response : Option PyResponse) (content : Option String) :
    check_sign_in_state re entry work response content
      = check_network_state entry (.ofWork work) response content true := by
  have h := pyEnumEq_reqCls_cuNS_SUCCEED _
    (check_network_state_cls entry (.ofWork work) response content true)
  simp [check_sign_in_state, h]

/-! ## A concrete regex engine for closed evaluations

Closed theorems need an executable instance of the engine.  This one
treats a pattern as a |-alternation of literals: it matches iff some
alternative occurs verbatim in the content.  On the literal patterns used
in the concrete inputs below this agrees with `re.search`.  All recursion
is structural so the kernel can evaluate it. -/

/-- Whether the first list is an initial segment of the second. -/
def listLeads : List Char → List Char → Bool
  | [], _ => true
  | _ :: _, [] => false
  | a :: as, b :: bs => a == b && listLeads as bs

/-- Whether `needle` occurs contiguously inside `haystack`. -/
def listOccurs (needle : List Char) : List Char → Bool
  | [] => needle.isEmpty
  | c :: cs => listLeads needle (c :: cs) || listOccurs needle cs

/-- Whether the non-empty string `needle` occurs inside `haystack`. -/
def occursIn (needle haystack : String) : Bool :=
  !needle.isEmpty && listOccurs needle.data haystack.data

/-- Splits a character list at every bar, for the |-alternation. -/
def splitBar : List Char → List Char → List (List Char)
  | [], cur => [cur.reverse]
  | c :: cs, cur =>
      if c == '|' then cur.reverse :: splitBar cs []
      else splitBar cs (c :: cur)

/-- The top-level |-alternatives of a pattern, as strings. -/
def patAlts (pat : String) : List String :=
  (splitBar pat.data []).map (fun l => ⟨l⟩)

/-- Concrete engine: a pattern matches iff one of its |-alternatives
occurs literally in the content; every group of the match reads as the
alternative that matched; `sub` is the identity (no concrete input below
reaches a `sub` call). -/
def litAltEngine : RegexEngine where
  search pat content :=
    match (patAlts pat).filter (fun alt => occursIn alt content) with
    | [] => none
    | alt :: _ => some (fun _ => alt)
  sub _ _ s := s

theorem SignInEntry_fail_sets_failed (e : SignInEntry) (reason error_type : String) :
    (SignInEntry.fail e reason error_type).failed = true := by
  simp only [SignInEntry.fail]
  split <;> rfl

theorem SignInEntry_failPrefixed_sets_failed (e : SignInEntry)
    (reason error_type : String) :
    (SignInEntry.failPrefixed e reason error_type).failed = true := by
  unfold SignInEntry.failPrefixed
  exact SignInEntry_fail_sets_failed ..

/-- C4: for every response present (with content present whenever it is
required) whose final URL is not in the active allow-list, the
network-state check classifies URL_REDIRECT and marks the entry failed. -/
theorem check_network_state_url_redirect (entry : SignInEntry) (param : CNSParam)
    (r : PyResponse) (content : Option String) (check_content : Bool)
    (hc : (check_content && content.isNone) = false)
    (hurl : (cnsUrls param).contains r.url = false) :
    (check_network_state entry param (some r) content check_content).1
        = reqNS_URL_REDIRECT
    ∧ (check_network_state entry param (some r) content check_content).2.failed
        = true := by
  unfold check_network_state
  simp only [hc, Bool.false_eq_true, if_false, hurl, Bool.not_false, if_true]
  exact ⟨by trivial, SignInEntry_failPrefixed_sets_failed ..⟩

/-- C4 witness: a concrete redirected response is classified URL_REDIRECT
and fails the entry. -/
theorem check_network_state_url_redirect_witness :
    (check_network_state { data := [] } (.ofList ["https://a/ok.php"])
        (some { url := "https://a/login.php" }) (some "page") true).1
        = reqNS_URL_REDIRECT
    ∧ (check_network_state { data := [] } (.ofList ["https://a/ok.php"])
        (some { url := "https://a/login.php" }) (some "page") true).2.failed
        = true :=
  check_network_state_url_redirect { data := [] } (.ofList ["https://a/ok.php"])
    { url := "https://a/login.php" } (some "page") true (by decide) (by decide)

/-- C5: fail always marks the entry failed, and overwrites the stored
reason and category exactly when the new category's priority is at least
the stored one, with connectivity at 3, authentication at 2, and general
or any unknown category at 1. -/
theorem SignInEntry_fail_spec (e : SignInEntry) (reason error_type : String) :
    (SignInEntry.fail e reason error_type).failed = true
    ∧ (error_priority error_type ≥ error_priority (e.errorType.getD "general") →
        (SignInEntry.fail e reason error_type).reason = reason
        ∧ (SignInEntry.fail e reason error_type).errorType = some error_type)
    ∧ (error_priority error_type < error_priority (e.errorType.getD "general") →
        (SignInEntry.fail e reason error_type).reason = e.reason
        ∧ (SignInEntry.fail e reason error_type).errorType = e.errorType)
    ∧ error_priority "connectivity" = 3
    ∧ error_priority "authentication" = 2
    ∧ (∀ s : String, s ≠ "connectivity" → s ≠ "authentication" →
        error_priority s = 1) := by
  refine ⟨SignInEntry_fail_sets_failed .., ?_, ?_, by decide, by decide, ?_⟩
  · intro h
    simp only [SignInEntry.fail]
    rw [if_pos h]
    exact ⟨rfl, rfl⟩
  · intro h
    simp only [SignInEntry.fail]
    rw [if_neg (by omega)]
    exact ⟨rfl, rfl⟩
  · intro s h1 h2
    unfold error_priority
    rw [if_neg (by simpa using h1), if_neg (by simpa using h2)]
    split <;> rfl

/-- C5 witness: a general-category call does not overwrite a stored
connectivity reason, while an authentication call overwrites a stored
general reason; both mark the entry failed. -/
theorem SignInEntry_fail_spec_witness :
    (SignInEntry.fail
        { data := [], failed := true, reason := "old", errorType := some "connectivity" }
        "late parse error" "general").reason = "old"
    ∧ (SignInEntry.fail
        { data := [], failed := false, reason := "first", errorType := some "general" }
        "cookie expired" "authentication").reason = "cookie expired"
    ∧ (SignInEntry.fail
        { data := [], failed := false, reason := "first", errorType := some "general" }
        "cookie expired" "authentication").failed = true :=
  ⟨((SignInEntry_fail_spec
      { data := [], failed := true, reason := "old", errorType := some "connectivity" }
      "late parse error" "general").2.2.1 (by decide)).1,
   ((SignInEntry_fail_spec
      { data := [], failed := false, reason := "first", errorType := some "general" }
      "cookie expired" "authentication").2.1 (by decide)).1,
   (SignInEntry_fail_spec
      { data := [], failed := false, reason := "first", errorType := some "general" }
      "cookie expired" "authentication").1⟩

/-- Entry used by the C3 counterexample. -/
def c3entry : SignInEntry := { data := [("result", "")] }

/-- Step used by the C3 counterexample: its success pattern also matches
the maintenance content. -/
def c3work : Work :=
  { url := "https://x/attendance.php",
    response_urls := ["https://x/attendance.php"],
    succeed_regex := [SucceedRegex.plain "Web server"] }

/-- Response used by the C3 counterexample: final URL inside the allow-list. -/
def c3resp : PyResponse := { url := "https://x/attendance.php" }

/-- Content used by the C3 counterexample: a maintenance-page signature. -/
def c3content : String := "Web server is down"

/-- C3 counterexample: the content is literally one of the alternatives of
the WEB_SERVER_IS_DOWN signature (the only maintenance-page phrases the
code knows) and a success pattern matches it too, yet the classification
is not MAINTENANCE: the classifier returns the request-enum SUCCEED
network state. -/
theorem check_sign_in_state_maintenance_cex :
    (patAlts cuNS_WEB_SERVER_IS_DOWN.val).contains c3content = true
    ∧ occursIn c3content c3content = true
    ∧ (RegexEngine.search litAltEngine "Web server" c3content).isSome = true
    ∧ (check_sign_in_state litAltEngine c3entry c3work (some c3resp)
        (some c3content)).1 = reqNS_SUCCEED
    ∧ pyEnumEq (check_sign_in_state litAltEngine c3entry c3work (some c3resp)
        (some c3content)).1 cuNS_MAINTENANCE = false := by
  decide

/-- C3 (amended): the classifier never classifies anything MAINTENANCE —
it has no maintenance-page case (the maintenance phrases sit in the
transient-error catalog evaluated after the success patterns), and in fact
it returns the network-state check's result for every input and engine,
because its guard compares enum members of the two distinct NetworkState
classes. -/
theorem check_sign_in_state_never_maintenance (re : RegexEngine)
    (entry : SignInEntry) (work : Work) (response : Option PyResponse)
    (content : Option String) :
    (check_sign_in_state re entry work response content).1 ≠ cuNS_MAINTENANCE
    ∧ check_sign_in_state re entry work response content
        = check_network_state entry (.ofWork work) response content true := by
  refine ⟨?_, check_sign_in_state_collapse ..⟩
  have hc2 : (check_sign_in_state re entry work response content).1.cls
      = reqNSCls := by
    rw [check_sign_in_state_collapse]
    exact check_network_state_cls entry (.ofWork work) response content true
  intro h
  rw [h] at hc2
  exact absurd hc2 (by decide)

/-- Entry used by the C6 evaluation. -/
def c6entry : SignInEntry := { data := [("result", "")] }

/-- Final Step used by the C6 evaluation: a success pattern that the
content will not match. -/
def c6work : Work :=
  { url := "https://x/",
    response_urls := ["https://x/"],
    succeed_regex := [SucceedRegex.plain "Welcome back"],
    assert_state := some ssSUCCEED }

/-- Response used by the C6 evaluation: final URL inside the allow-list. -/
def c6resp : PyResponse := { url := "https://x/" }

/-- Content used by the C6 evaluation: matches nothing. -/
def c6content : String := "just an ordinary page"

/-- C6: at a final-step input whose content matches no pattern — the case
the spec promotes from NOT_YET_DONE to CHECKIN_FAILED — the code does not
promote: check_sign_in_state can never yield the SignState NO_SIGN_IN
member (its guard compares the two distinct NetworkState enum classes and
returns the network state), so check_final_state passes the request-enum
SUCCEED through and the entry is not failed. -/
theorem check_final_state_no_promotion :
    (RegexEngine.search litAltEngine "Welcome back" c6content).isSome = false
    ∧ (check_final_state litAltEngine c6entry c6work (some c6resp)
        (some c6content)).1 = reqNS_SUCCEED
    ∧ pyEnumEq (check_final_state litAltEngine c6entry c6work (some c6resp)
        (some c6content)).1 ssSIGN_IN_FAILED = false
    ∧ (check_final_state litAltEngine c6entry c6work (some c6resp)
        (some c6content)).2.failed = false := by
  decide

/-- Entry used by the C10 evaluation. -/
def c10entry : SignInEntry := { data := [("result", ""), ("extra_msg", "")] }

/-- Step with an empty success-pattern list, used by the C10 evaluation. -/
def c10work : Work :=
  { url := "https://y/", response_urls := ["https://y/"], succeed_regex := [] }

/-- Response used by the C10 evaluation: final URL inside the allow-list. -/
def c10resp : PyResponse := { url := "https://y/" }

/-- C10: with an empty success-pattern list and a passing network-state
check (the check itself returns its SUCCEED), the classification is not
the SignState SUCCEED member and the result message is not set: the guard
compares the two distinct NetworkState enum classes, so the empty-pattern
branch (sign_in.py lines 43-45, which implements exactly the claimed
behaviour) is unreachable. -/
theorem check_sign_in_state_empty_patterns_cex :
    c10work.succeed_regex = []
    ∧ (check_network_state c10entry (.ofWork c10work) (some c10resp)
        (some "any page content") true).1 = reqNS_SUCCEED
    ∧ (check_sign_in_state litAltEngine c10entry c10work (some c10resp)
        (some "any page content")).1 = reqNS_SUCCEED
    ∧ pyEnumEq (check_sign_in_state litAltEngine c10entry c10work (some c10resp)
        (some "any page content")).1 ssSUCCEED = false
    ∧ SignInEntry.get (check_sign_in_state litAltEngine c10entry c10work
        (some c10resp) (some "any page content")).2 "result" = "" := by
  decide

/-! ## Daily Ledger: SignInStatusManager (core/signin_status.py)

`status_data` maps a date string to a per-site dict of records.  Records
are Python dicts with varying keys, so every field is an `Option` (a
record created by `clear_site_status(keep_failed_count=True)` holds only
`failed_count`).  `datetime.now()` becomes explicit `today`/`timeStr`/
`tsStr`/`nowSec` parameters, and `datetime.fromisoformat` becomes the
parameter `fromIso` (None models the ValueError the source catches). -/

/-- One per-site daily record of `signin_status.json`. -/
structure SiteRecord where
  status : Option String := none
  result : Option String := none
  messages : Option String := none
  details : Option String := none
  reason : Option String := none
  time : Option String := none
  timestamp : Option String := none
  failed_count : Option Nat := none
deriving DecidableEq, Repr

/-- The per-site dict of one date. -/
abbrev DayData := Dict String SiteRecord

/-- The full ledger `status_data`. -/
abbrev StatusData := Dict String DayData

/-- Embeds `if today not in self.status_data: self.status_data[today] = {}`. -/
def ensure_day (sd : StatusData) (today : String) : StatusData :=
  if (dget sd today).isSome then sd else dset sd today []

/-- Embeds `SignInStatusManager.get_failed_count` (lines 123-128). -/
def get_failed_count (sd : StatusData) (today site : String) : Nat :=
  match (dget sd today).bind (fun d => dget d site) with
  | some r => r.failed_count.getD 0
  | none => 0

/-- Embeds `SignInStatusManager.get_site_status` (lines 56-61). -/
def get_site_status (sd : StatusData) (today site : String) : Option SiteRecord :=
  (dget sd today).bind (fun d => dget d site)

/-- Embeds `SignInStatusManager.record_signin_success` (lines 63-79). -/
def record_signin_success (sd : StatusData)
    (today site result messages details timeStr tsStr : String) : StatusData :=
  let sd1 := ensure_day sd today
  let day := (dget sd1 today).getD []
  dset sd1 today (dset day site
    { status := some "success", result := some result,
      messages := some messages, details := some details,
      time := some timeStr, timestamp := some tsStr, failed_count := some 0 })

/-- Embeds `SignInStatusManager.record_signin_failed` (lines 81-103): the
current count is read from the existing record (0 when absent), reset to 0
when that record's status is success, then incremented. -/
def record_signin_failed (sd : StatusData)
    (today site reason timeStr tsStr : String) : StatusData :=
  let sd1 := ensure_day sd today
  let day := (dget sd1 today).getD []
  let current_failed_count :=
    match dget day site with
    | none => 0
    | some r => if r.status = some "success" then 0 else r.failed_count.getD 0
  dset sd1 today (dset day site
    { status := some "failed", reason := some reason,
      time := some timeStr, timestamp := some tsStr,
      failed_count := some (current_failed_count + 1) })

/-- Embeds `SignInStatusManager.clear_site_status` (lines 105-121). -/
def clear_site_status (sd : StatusData) (today site : String)
    (keep_failed_count : Bool) : StatusData :=
  match (dget sd today).bind (fun d => dget d site) with
  | none => sd
  | some r =>
      let day := (dget sd today).getD []
      if keep_failed_count then
        let failed_count := r.failed_count.getD 0
        let day1 := ddel day site
        let day2 :=
          if failed_count > 0 then
            dset day1 site { failed_count := some failed_count }
          else day1
        dset sd today day2
      else
        dset sd today (ddel day site)

/-- Embeds `SignInStatusManager.should_skip_due_to_failures`
(lines 130-154).  `fromIso` models `datetime.fromisoformat`; the caught
KeyError (missing timestamp) and ValueError (unparseable timestamp) both
yield the no-skip result.  The float comparison
`seconds/3600 < retry_interval_hours` is modelled exactly as
`seconds < retry_interval_hours * 3600`. -/
def should_skip_due_to_failures (fromIso : String → Option Int) (nowSec : Int)
    (sd : StatusData) (today site : String)
    (max_failed_attempts retry_interval_hours : Nat) : Bool × String :=
  let failed_count := get_failed_count sd today site
  if failed_count < max_failed_attempts then (false, "")
  else
    match get_site_status sd today site with
    | some st =>
        if st.status = some "failed" then
          match st.timestamp with
          | none => (false, "")
          | some ts =>
              match fromIso ts with
              | none => (false, "")
              | some t =>
                  if nowSec - t < (retry_interval_hours : Int) * 3600 then
                    (true, "连续失败" ++ toString failed_count ++ "次，"
                      ++ toString retry_interval_hours ++ "小时内不再尝试")
                  else (false, "")
        else
          (true, "连续失败" ++ toString failed_count ++ "次，暂时跳过")
    | none =>
        (true, "连续失败" ++ toString failed_count ++ "次，暂时跳过")

theorem keyCount_eq_zero_of_not_mem {α β : Type} [BEq α] [LawfulBEq α]
    (d : Dict α β) (k : α) (h : k ∉ d.map Prod.fst) : keyCount d k = 0 := by
  induction d with
  | nil => rfl
  | cons p rest ih =>
    simp only [List.map_cons, List.mem_cons] at h
    push_neg at h
    rw [keyCount_cons, if_neg (by simp [h.1.symm]), ih h.2]

theorem DictWF_of_nodup {α β : Type} [BEq α] [LawfulBEq α]
    (d : Dict α β) (h : (d.map Prod.fst).Nodup) : DictWF d := by
  induction d with
  | nil => intro k; simp [keyCount, List.filter]
  | cons p rest ih =>
    simp only [List.map_cons, List.nodup_cons] at h
    intro k
    rw [keyCount_cons]
    by_cases hk : p.1 == k
    · have : k ∉ rest.map Prod.fst := by
        have : p.1 = k := by simpa using hk
        rw [← this]; exact h.1
      rw [if_pos hk, keyCount_eq_zero_of_not_mem rest k this]
    · rw [if_neg hk]
      simpa using ih h.2 k

theorem dget_ensure_day (sd : StatusData) (today : String) :
    dget (ensure_day sd today) today = some ((dget sd today).getD []) := by
  unfold ensure_day
  cases h : dget sd today with
  | some d => simp [h]
  | none => simp [h, dget_dset_self]

theorem get_site_status_eq_day (sd : StatusData) (today site : String) :
    get_site_status sd today site = dget ((dget sd today).getD []) site := by
  unfold get_site_status
  cases h : dget sd today with
  | some d => rfl
  | none => rfl

/-- C7: a success write for (date, target) leaves the target's key bound
exactly once in that date's dict, to a record whose status is success and
whose failed_count is 0, whatever was stored before. -/
theorem record_signin_success_spec (sd : StatusData)
    (today site result messages details timeStr tsStr : String)
    (hwf : DictWF ((dget sd today).getD [])) :
    dget ((dget (record_signin_success sd today site result messages details
        timeStr tsStr) today).getD []) site
      = some { status := some "success", result := some result,
               messages := some messages, details := some details,
               time := some timeStr, timestamp := some tsStr,
               failed_count := some 0 }
    ∧ keyCount ((dget (record_signin_success sd today site result messages
        details timeStr tsStr) today).getD []) site = 1 := by
  simp only [record_signin_success]
  rw [dget_dset_self, Option.getD_some]
  simp only [dget_ensure_day, Option.getD_some]
  exact ⟨dget_dset_self .., keyCount_dset_self _ _ _ hwf⟩

/-- C7 witness: overwriting an existing failed record with count 5 yields a
single success record with failed_count 0. -/
theorem record_signin_success_spec_witness :
    dget ((dget (record_signin_success
        [("2026-10-12", [("siteA",
          { status := some "failed", reason := some "boom",
            timestamp := some "2026-10-12T08:00:00", failed_count := some 5 })])]
        "2026-10-12" "siteA" "签到成功" "" "" "09:00:00"
        "2026-10-12T09:00:00") "2026-10-12").getD []) "siteA"
      = some { status := some "success", result := some "签到成功",
               messages := some "", details := some "",
               time := some "09:00:00", timestamp := some "2026-10-12T09:00:00",
               failed_count := some 0 }
    ∧ keyCount ((dget (record_signin_success
        [("2026-10-12", [("siteA",
          { status := some "failed", reason := some "boom",
            timestamp := some "2026-10-12T08:00:00", failed_count := some 5 })])]
        "2026-10-12" "siteA" "签到成功" "" "" "09:00:00"
        "2026-10-12T09:00:00") "2026-10-12").getD []) "siteA" = 1 :=
  record_signin_success_spec
    [("2026-10-12", [("siteA",
      { status := some "failed", reason := some "boom",
        timestamp := some "2026-10-12T08:00:00", failed_count := some 5 })])]
    "2026-10-12" "siteA" "签到成功" "" "" "09:00:00" "2026-10-12T09:00:00"
    (DictWF_of_nodup _ (by decide))

/-- The failure count a failure write stores: the previous record's count
(0 when no record or no count), reset to 0 when that record's status is
success, plus one. -/
def next_failed_count (old : Option SiteRecord) : Nat :=
  (match old with
   | none => 0
   | some r => if r.status = some "success" then 0 else r.failed_count.getD 0) + 1

theorem next_failed_count_of_success (old : Option SiteRecord)
    (h : old.bind SiteRecord.status = some "success") :
    next_failed_count old = 1 := by
  cases old with
  | none => simp at h
  | some r =>
    have h2 : r.status = some "success" := h
    simp [next_failed_count, h2]

theorem record_signin_failed_lookup (sd : StatusData)
    (today site reason timeStr tsStr : String) :
    dget ((dget (record_signin_failed sd today site reason timeStr tsStr)
        today).getD []) site
      = some { status := some "failed", reason := some reason,
               time := some timeStr, timestamp := some tsStr,
               failed_count :=
                 some (next_failed_count (get_site_status sd today site)) } := by
  simp only [record_signin_failed]
  rw [dget_dset_self, Option.getD_some]
  simp only [dget_ensure_day, Option.getD_some]
  rw [dget_dset_self, get_site_status_eq_day]
  rfl

/-- C8: a failure write stores failed_count = previous count + 1, where the
previous count is first reset to 0 when the existing record's status was
success — so a failure right after a success stores 1. -/
theorem record_signin_failed_spec (sd : StatusData)
    (today site reason timeStr tsStr : String) :
    dget ((dget (record_signin_failed sd today site reason timeStr tsStr)
        today).getD []) site
      = some { status := some "failed", reason := some reason,
               time := some timeStr, timestamp := some tsStr,
               failed_count :=
                 some (next_failed_count (get_site_status sd today site)) }
    ∧ ((get_site_status sd today site).bind SiteRecord.status = some "success" →
        dget ((dget (record_signin_failed sd today site reason timeStr tsStr)
            today).getD []) site
          = some { status := some "failed", reason := some reason,
                   time := some timeStr, timestamp := some tsStr,
                   failed_count := some 1 }) := by
  have hmain := record_signin_failed_lookup sd today site reason timeStr tsStr
  exact ⟨hmain, fun hs => by rw [hmain, next_failed_count_of_success _ hs]⟩

/-- C8 witness: a failure written over an existing success record (whatever
its stored count) stores failed_count 1; written over a failed record with
count 2 it stores 3. -/
theorem record_signin_failed_spec_witness :
    dget ((dget (record_signin_failed
        [("2026-10-12", [("siteA",
          { status := some "success", result := some "ok", failed_count := some 0 })])]
        "2026-10-12" "siteA" "bad" "10:00:00" "T1") "2026-10-12").getD []) "siteA"
      = some { status := some "failed", reason := some "bad",
               time := some "10:00:00", timestamp := some "T1",
               failed_count := some 1 }
    ∧ dget ((dget (record_signin_failed
        [("2026-10-12", [("siteB",
          { status := some "failed", reason := some "old",
            timestamp := some "T0", failed_count := some 2 })])]
        "2026-10-12" "siteB" "bad2" "11:00:00" "T2") "2026-10-12").getD []) "siteB"
      = some { status := some "failed", reason := some "bad2",
               time := some "11:00:00", timestamp := some "T2",
               failed_count := some 3 } :=
  ⟨(record_signin_failed_spec
      [("2026-10-12", [("siteA",
        { status := some "success", result := some "ok", failed_count := some 0 })])]
      "2026-10-12" "siteA" "bad" "10:00:00" "T1").2 (by decide),
   (record_signin_failed_spec
      [("2026-10-12", [("siteB",
        { status := some "failed", reason := some "old",
          timestamp := some "T0", failed_count := some 2 })])]
      "2026-10-12" "siteB" "bad2" "11:00:00" "T2").1⟩

/-- C2 (amended): below the threshold the check never skips; at or above
the threshold, when the day's record has status failed and a parseable
timestamp, it skips exactly when the elapsed seconds are strictly below
the retry interval; a missing or unparseable timestamp yields no skip;
and a record without failed status (or no record) is skipped
unconditionally, regardless of elapsed time. -/
theorem should_skip_due_to_failures_spec (fromIso : String → Option Int)
    (nowSec : Int) (sd : StatusData) (today site : String) (maxF retryH : Nat) :
    (get_failed_count sd today site < maxF →
      should_skip_due_to_failures fromIso nowSec sd today site maxF retryH
        = (false, ""))
    ∧ (¬ get_failed_count sd today site < maxF →
      ∀ st ts t, get_site_status sd today site = some st →
        st.status = some "failed" → st.timestamp = some ts → fromIso ts = some t →
        ((should_skip_due_to_failures fromIso nowSec sd today site maxF retryH).1
            = true
          ↔ nowSec - t < (retryH : Int) * 3600))
    ∧ (¬ get_failed_count sd today site < maxF →
      ∀ st ts, get_site_status sd today site = some st →
        st.status = some "failed" → st.timestamp = some ts → fromIso ts = none →
        should_skip_due_to_failures fromIso nowSec sd today site maxF retryH
          = (false, ""))
    ∧ (¬ get_failed_count sd today site < maxF →
      ∀ st, get_site_status sd today site = some st →
        st.status = some "failed" → st.timestamp = none →
        should_skip_due_to_failures fromIso nowSec sd today site maxF retryH
          = (false, ""))
    ∧ (¬ get_failed_count sd today site < maxF →
      (∀ st, get_site_status sd today site = some st →
        ¬ st.status = some "failed") →
      (should_skip_due_to_failures fromIso nowSec sd today site maxF retryH).1
        = true) := by
  refine ⟨?_, ?_, ?_, ?_, ?_⟩
  · intro h
    simp [should_skip_due_to_failures, h]
  · intro h st ts t hst hstat hts hiso
    simp only [should_skip_due_to_failures, if_neg h, hst, hts, hiso, if_pos hstat]
    by_cases hc : nowSec - t < (retryH : Int) * 3600
    · simp [hc]
    · simp [hc]
  · intro h st ts hst hstat hts hiso
    simp only [should_skip_due_to_failures, if_neg h, hst, hts, hiso, if_pos hstat]
  · intro h st hst hstat hts
    simp only [should_skip_due_to_failures, if_neg h, hst, hts, if_pos hstat]
  · intro h h2
    cases hgs : get_site_status sd today site with
    | none => simp [should_skip_due_to_failures, if_neg h, hgs]
    | some st =>
      have hnst := h2 st hgs
      simp [should_skip_due_to_failures, if_neg h, hgs, hnst]

/-- Parse stub for concrete ledger evaluations: every timestamp string the
concrete states below store parses to epoch second 0. -/
def isoStub : String → Option Int := fun _ => some 0

/-- Ledger state used by the C2 witness: one recorded failure. -/
def c2wstate : StatusData :=
  record_signin_failed [] "2026-10-11" "siteA" "boom" "10:00:00"
    "2026-10-11T10:00:00"

/-- C2 witness: with one failure at threshold 1 recorded at epoch 0 and
the clock at 3600 s (inside the 2-hour interval), the check skips. -/
theorem should_skip_due_to_failures_spec_witness :
    (should_skip_due_to_failures isoStub 3600 c2wstate "2026-10-11" "siteA"
      1 2).1 = true :=
  ((should_skip_due_to_failures_spec isoStub 3600 c2wstate "2026-10-11" "siteA"
      1 2).2.1
    (by decide)
    { status := some "failed", reason := some "boom", time := some "10:00:00",
      timestamp := some "2026-10-11T10:00:00", failed_count := some 1 }
    "2026-10-11T10:00:00" 0 (by decide) (by decide) (by decide)
    (by decide)).mpr (by decide)

/-- Ledger state used by the C2 counterexample: one recorded failure (at
epoch second 0 under `isoStub`), then the scheduler's force-rerun path
`clear_site_status(site, keep_failed_count=True)`, which leaves a record
holding only failed_count. -/
def c2state : StatusData :=
  clear_site_status
    (record_signin_failed [] "2026-10-11" "siteA" "boom" "10:00:00"
      "2026-10-11T10:00:00")
    "2026-10-11" "siteA" true

/-- C2 counterexample: failure count 1 ≥ threshold 1, the only failure ever
recorded happened at epoch 0 and the clock is at 10^9 s — the elapsed time
vastly exceeds the 2-hour retry interval, so the claim says the check must
not skip; the code skips, because the surviving record has no failed
status and the final fall-through returns skip unconditionally. -/
theorem should_skip_due_to_failures_cex :
    get_failed_count c2state "2026-10-11" "siteA" = 1
    ∧ (get_site_status c2state "2026-10-11" "siteA").bind SiteRecord.status = none
    ∧ ((1000000000 : Int) - 0 ≥ (2 : Int) * 3600)
    ∧ (should_skip_due_to_failures isoStub 1000000000 c2state "2026-10-11"
        "siteA" 1 2).1 = true := by
  decide

/-! ## Scheduler: TaskScheduler.run_sign_in_task (core/scheduler.py)

The scheduler imports its own `core/signin_status.py`, a file absent from
the snapshot; its failure write `record_signin_failed(site, reason)`
matches the signature of the `SignInStatusManager` embedded above, which
is reused here (the success write passes an extra `signin_type` argument
that this record ignores).  One `sign_in(entry, config)` call either
completes with the mutated entry or raises; an exception carries the entry
as mutated up to the raise. -/

/-- Outcome of one `sign_in(entry, config)` call. -/
inductive TaskOutcome where
  | completes (e : SignInEntry)
  | raises (e : SignInEntry) (msg : String)

/-- Embeds `TaskScheduler._sign_in_with_error_handling` (lines 309-316):
every exception is caught and converted into
`entry.fail(f"签到异常: \x7be\x7d")` with the default general category. -/
def sign_in_with_error_handling (signIn : SignInEntry → TaskOutcome)
    (e : SignInEntry) : SignInEntry :=
  match signIn e with
  | .completes e1 => e1
  | .raises e1 msg => SignInEntry.fail e1 ("签到异常: " ++ msg) "general"

/-- The success/failure tallies the signing loop accumulates. -/
structure CycleStats where
  success_count : Nat := 0
  failed_count : Nat := 0
deriving DecidableEq, Repr

/-- Embeds the per-entry body of the signing loop (scheduler.py lines
131-186): run the guarded sign-in, then immediately write this entry's
ledger record — a failed record with the entry's reason when the entry is
failed, a success record otherwise. -/
def process_entry (signIn : SignInEntry → TaskOutcome) (sd : StatusData)
    (stats : CycleStats) (today timeStr tsStr : String) (e : SignInEntry) :
    StatusData × CycleStats :=
  let e1 := sign_in_with_error_handling signIn e
  if e1.failed then
    (record_signin_failed sd today (SignInEntry.get e1 "site_name") e1.reason
        timeStr tsStr,
     { stats with failed_count := stats.failed_count + 1 })
  else
    (record_signin_success sd today (SignInEntry.get e1 "site_name")
        (SignInEntry.get e1 "result" "签到成功") (SignInEntry.get e1 "messages")
        (SignInEntry.get e1 "details") timeStr tsStr,
     { stats with success_count := stats.success_count + 1 })

/-- Embeds the signing loop over `valid_entries` (scheduler.py lines
130-186): strictly sequential; every entry is processed and its ledger
write happens upon its completion, before the next entry starts. -/
def run_entries (signIn : SignInEntry → TaskOutcome)
    (today timeStr tsStr : String) :
    List SignInEntry → StatusData × CycleStats → StatusData × CycleStats
  | [], acc => acc
  | e :: rest, acc =>
      run_entries signIn today timeStr tsStr rest
        (process_entry signIn acc.1 acc.2 today timeStr tsStr e)

/-- C9: the cycle always continues past each entry (the loop on e :: rest
is the loop on rest from the state after processing e — no outcome of e,
exception included, aborts it); each processed entry adds exactly one
tally; an exception raised by the sign-in marks the entry failed and is
converted into a failed ledger record for that entry's site, written
immediately. -/
theorem run_sign_in_task_loop_spec (signIn : SignInEntry → TaskOutcome)
    (today timeStr tsStr : String) (e : SignInEntry) (rest : List SignInEntry)
    (sd : StatusData) (stats : CycleStats) :
    run_entries signIn today timeStr tsStr (e :: rest) (sd, stats)
      = run_entries signIn today timeStr tsStr rest
          (process_entry signIn sd stats today timeStr tsStr e)
    ∧ ((process_entry signIn sd stats today timeStr tsStr e).2.success_count
        + (process_entry signIn sd stats today timeStr tsStr e).2.failed_count
        = stats.success_count + stats.failed_count + 1)
    ∧ (∀ e1 msg, signIn e = .raises e1 msg →
        (sign_in_with_error_handling signIn e).failed = true)
    ∧ (∀ e1 msg, signIn e = .raises e1 msg →
        dget ((dget (process_entry signIn sd stats today timeStr tsStr e).1
            today).getD [])
          (SignInEntry.get (SignInEntry.fail e1 ("签到异常: " ++ msg) "general")
            "site_name")
          = some { status := some "failed",
                   reason := some (SignInEntry.fail e1 ("签到异常: " ++ msg)
                     "general").reason,
                   time := some timeStr, timestamp := some tsStr,
                   failed_count := some (next_failed_count (get_site_status sd
                     today (SignInEntry.get (SignInEntry.fail e1
                       ("签到异常: " ++ msg) "general") "site_name"))) }) := by
  refine ⟨rfl, ?_, ?_, ?_⟩
  · simp only [process_entry]
    split
    · simp only []
      omega
    · simp only []
      omega
  · intro e1 msg h
    simp only [sign_in_with_error_handling, h]
    exact SignInEntry_fail_sets_failed ..
  · intro e1 msg h
    simp only [process_entry, sign_in_with_error_handling, h,
      SignInEntry_fail_sets_failed, if_true]
    exact record_signin_failed_lookup ..

/-- Entry used by the C9 witness. -/
def c9entry : SignInEntry := { data := [("site_name", "siteZ"), ("result", "")] }

/-- Sign-in behaviour used by the C9 witness: it always raises. -/
def c9signIn : SignInEntry → TaskOutcome :=
  fun e => .raises e "connection refused"

/-- C9 witness: a raising task is converted into a failed ledger record for
its site and the loop equation holds at a concrete state. -/
theorem run_sign_in_task_loop_spec_witness :
    run_entries c9signIn "2026-10-12" "10:00:00" "T" [c9entry] ([], {})
      = run_entries c9signIn "2026-10-12" "10:00:00" "T" []
          (process_entry c9signIn [] {} "2026-10-12" "10:00:00" "T" c9entry)
    ∧ dget ((dget (process_entry c9signIn [] {} "2026-10-12" "10:00:00" "T"
          c9entry).1 "2026-10-12").getD [])
        (SignInEntry.get (SignInEntry.fail c9entry
          ("签到异常: " ++ "connection refused") "general") "site_name")
        = some { status := some "failed",
                 reason := some (SignInEntry.fail c9entry
                   ("签到异常: " ++ "connection refused") "general").reason,
                 time := some "10:00:00", timestamp := some "T",
                 failed_count := some (next_failed_count (get_site_status []
                   "2026-10-12" (SignInEntry.get (SignInEntry.fail c9entry
                     ("签到异常: " ++ "connection refused") "general")
                     "site_name"))) } :=
  ⟨(run_sign_in_task_loop_spec c9signIn "2026-10-12" "10:00:00" "T" c9entry []
      [] {}).1,
   (run_sign_in_task_loop_spec c9signIn "2026-10-12" "10:00:00" "T" c9entry []
      [] {}).2.2.2 c9entry "connection refused" rfl⟩

/-! ## Retry Coordinator: Executor.execute_with_retry (ptsites/core/executor.py)

The executor's collaborators become an explicit environment: the per-site
"signed in today" flag, the configured max_retries (None means the default
3), the entry's use_cookie_cloud flag, the presence of the CookieCloud
client, the database cookie, the cookie the entry carries, one outcome per
`execute` attempt, and one outcome per cloud `get_cookies` call during the
retry loop.  A failed attempt is a SignInError; the failure CATEGORY of
the spec's taxonomy is carried as metadata on the outcome so claims can
mention it — `execute_with_retry` itself never reads it, which is exactly
the point at issue in the retry-refresh claim. -/

/-- Outcome of one `execute(entry)` call inside the retry loop. -/
inductive AttemptOutcome where
  | ok (result : String)
  | err (category : String) (msg : String)

/-- One interaction with the external credential source: either the
ValueError/AttributeError path (URL unusable), or `get_cookies` returning
a cookie (None or empty counts as no cookie). -/
inductive CloudCall where
  | raisesVA
  | returns (cookie : Option String)

/-- Environment of one `execute_with_retry` run. -/
structure RetryEnv where
  hasSignedInToday : Bool
  maxRetriesCfg : Option Nat
  useCookieCloud : Bool
  clientPresent : Bool
  dbCookie : Option String
  initialCloud : CloudCall
  entryCookie : Option String
  attempts : Nat → AttemptOutcome
  cloudCalls : Nat → CloudCall

/-- Python truthiness of an optional cookie string (None and "" are falsy,
as in `if not cookie` / `if new_cookie`). -/
def cookieTruthy (c : Option String) : Bool :=
  match c with
  | none => false
  | some s => !s.isEmpty

/-- Result of `Executor._get_cookie`. -/
structure CookieRes where
  cookie : Option String
  source : String
  saved : List String
deriving Repr

/-- Embeds `Executor._get_cookie` (lines 123-147): database cookie first
(when the target opts into CookieCloud and a client exists), then the
cloud (saving a truthy cookie to the database), then the entry's
configured cookie as fallback for a falsy result. -/
def get_cookie_resolution (env : RetryEnv) : CookieRes :=
  let res :=
    if env.useCookieCloud && env.clientPresent then
      match env.dbCookie with
      | some c => { cookie := some c, source := "数据库", saved := [] }
      | none =>
          match env.initialCloud with
          | .raisesVA => { cookie := none, source := "数据库", saved := [] }
          | .returns c =>
              if cookieTruthy c then
                { cookie := c, source := "云端", saved := [c.getD ""] }
              else
                { cookie := c, source := "云端", saved := [] }
    else { cookie := none, source := "配置", saved := [] }
  if cookieTruthy res.cookie then res
  else { res with cookie := env.entryCookie }

/-- Final result of `execute_with_retry`. -/
inductive RetryResult where
  | alreadySigned
  | noCookie
  | success (result source : String)
  | exhausted (lastError : Option String)
deriving DecidableEq, Repr

/-- Observable trace of one `execute_with_retry` run: the returned result,
the cloud get_cookies calls made inside the retry loop — tagged with the
attempt index and the category of the SignInError that preceded them —
the cookies saved to the database, and the number of `execute` calls. -/
structure RetryTrace where
  result : RetryResult
  cloudRetryCalls : List (Nat × String)
  savedCookies : List String
  executeCalls : Nat
deriving DecidableEq, Repr

/-- Embeds the `for attempt in range(max_retries)` loop of
`execute_with_retry` (lines 85-121).  On a SignInError, when another
attempt remains AND the target opts into CookieCloud AND a client exists,
the cloud is asked for a fresh cookie — regardless of the failure's
category; a truthy cookie is saved and substituted and the loop continues,
anything else breaks to the final failure return.  Without the opt-in the
loop simply retries with the unchanged cookie. -/
def retry_loop (env : RetryEnv) (maxR : Nat) (cookie source : String)
    (lastError : Option String) (attempt remaining : Nat)
    (calls : List (Nat × String)) (saved : List String) (execCalls : Nat) :
    RetryTrace :=
  match remaining with
  | 0 =>
      { result := .exhausted lastError, cloudRetryCalls := calls,
        savedCookies := saved, executeCalls := execCalls }
  | r + 1 =>
      match env.attempts attempt with
      | .ok res =>
          { result := .success res source, cloudRetryCalls := calls,
            savedCookies := saved, executeCalls := execCalls + 1 }
      | .err _cat msg =>
          if attempt < maxR - 1 && (env.useCookieCloud && env.clientPresent) then
            match env.cloudCalls attempt with
            | .raisesVA =>
                { result := .exhausted (some msg), cloudRetryCalls := calls,
                  savedCookies := saved, executeCalls := execCalls + 1 }
            | .returns c =>
                if cookieTruthy c then
                  retry_loop env maxR (c.getD "") "云端" (some msg)
                    (attempt + 1) r (calls ++ [(attempt, _cat)])
                    (saved ++ [c.getD ""]) (execCalls + 1)
                else
                  { result := .exhausted (some msg),
                    cloudRetryCalls := calls ++ [(attempt, _cat)],
                    savedCookies := saved, executeCalls := execCalls + 1 }
          else
            retry_loop env maxR cookie source (some msg) (attempt + 1) r
              calls saved (execCalls + 1)

/-- Embeds `Executor.execute_with_retry` (lines 67-121): the
already-signed-in early return, max_retries from the config with default
3, the initial credential resolution, then the retry loop. -/
def execute_with_retry (env : RetryEnv) : RetryTrace :=
  if env.hasSignedInToday then
    { result := .alreadySigned, cloudRetryCalls := [], savedCookies := [],
      executeCalls := 0 }
  else
    let maxR := env.maxRetriesCfg.getD 3
    let cs := get_cookie_resolution env
    if !(cookieTruthy cs.cookie) then
      { result := .noCookie, cloudRetryCalls := [], savedCookies := [],
        executeCalls := 0 }
    else
      retry_loop env maxR (cs.cookie.getD "") cs.source none 0 maxR []
        cs.saved 0

theorem retry_loop_no_optin (env : RetryEnv) (maxR : Nat)
    (hno : (env.useCookieCloud && env.clientPresent) = false)
    (hAllFail : ∀ k, ∃ c m, env.attempts k = .err c m) :
    ∀ remaining attempt cookie source lastError calls saved execCalls,
      (retry_loop env maxR cookie source lastError attempt remaining calls
        saved execCalls).cloudRetryCalls = calls
      ∧ (retry_loop env maxR cookie source lastError attempt remaining calls
          saved execCalls).savedCookies = saved
      ∧ (retry_loop env maxR cookie source lastError attempt remaining calls
          saved execCalls).executeCalls = execCalls + remaining
      ∧ ∃ m, (retry_loop env maxR cookie source lastError attempt remaining
          calls saved execCalls).result = .exhausted m := by
  intro remaining
  induction remaining with
  | zero =>
    intro attempt cookie source lastError calls saved execCalls
    exact ⟨rfl, rfl, rfl, lastError, rfl⟩
  | succ r ih =>
    intro attempt cookie source lastError calls saved execCalls
    obtain ⟨c, m, hk⟩ := hAllFail attempt
    simp only [retry_loop, hk, hno, Bool.and_false, Bool.false_eq_true,
      if_false]
    have h := ih (attempt + 1) cookie source (some m) calls saved (execCalls + 1)
    refine ⟨h.1, h.2.1, ?_, h.2.2.2⟩
    rw [h.2.2.1]
    omega

theorem retry_loop_calls_extend (env : RetryEnv) (maxR : Nat) :
    ∀ remaining attempt cookie source lastError calls saved execCalls,
      ∃ suffix, (retry_loop env maxR cookie source lastError attempt remaining
        calls saved execCalls).cloudRetryCalls = calls ++ suffix := by
  intro remaining
  induction remaining with
  | zero =>
    intro attempt cookie source lastError calls saved execCalls
    exact ⟨[], (List.append_nil calls).symm⟩
  | succ r ih =>
    intro attempt cookie source lastError calls saved execCalls
    cases hA : env.attempts attempt with
    | ok res =>
      simp only [retry_loop, hA]
      exact ⟨[], (List.append_nil calls).symm⟩
    | err cat msg =>
      simp only [retry_loop, hA]
      by_cases hcond :
          (decide (attempt < maxR - 1)
            && (env.useCookieCloud && env.clientPresent)) = true
      · simp only [hcond, if_true]
        cases hC : env.cloudCalls attempt with
        | raisesVA => exact ⟨[], (List.append_nil calls).symm⟩
        | returns c =>
          by_cases htr : cookieTruthy c = true
          · simp only [htr, if_true]
            obtain ⟨suffix, hs⟩ := ih (attempt + 1) (c.getD "") "云端"
              (some msg) (calls ++ [(attempt, cat)]) (saved ++ [c.getD ""])
              (execCalls + 1)
            exact ⟨(attempt, cat) :: suffix, by rw [hs, List.append_assoc]; rfl⟩
          · simp only [htr, Bool.false_eq_true, if_false]
            exact ⟨[(attempt, cat)], rfl⟩
      · simp only [hcond, Bool.false_eq_true, if_false]
        exact ih (attempt + 1) cookie source (some msg) calls saved
          (execCalls + 1)

/-- C1 (amended): the forced cloud refresh before a retry depends only on
the CookieCloud opt-in (and a configured client), never on the failure's
category.  Without the opt-in no refresh call is ever made and the failing
target is retried verbatim until the attempt budget (max_retries,
default 3) is exhausted; with the opt-in, a failed non-final attempt of
ANY category is followed by a cloud refresh call. -/
theorem execute_with_retry_refresh_spec (env : RetryEnv) :
    ((env.useCookieCloud && env.clientPresent) = false →
      env.hasSignedInToday = false →
      cookieTruthy (get_cookie_resolution env).cookie = true →
      (∀ k, ∃ c m, env.attempts k = .err c m) →
      (execute_with_retry env).cloudRetryCalls = []
      ∧ (execute_with_retry env).executeCalls = env.maxRetriesCfg.getD 3
      ∧ ∃ m, (execute_with_retry env).result = .exhausted m)
    ∧ (∀ cat msg c,
      (env.useCookieCloud && env.clientPresent) = true →
      env.hasSignedInToday = false →
      cookieTruthy (get_cookie_resolution env).cookie = true →
      env.attempts 0 = .err cat msg →
      env.cloudCalls 0 = .returns c →
      0 < env.maxRetriesCfg.getD 3 - 1 →
      (0, cat) ∈ (execute_with_retry env).cloudRetryCalls) := by
  constructor
  · intro hno hsigned hcookie hAllFail
    simp only [execute_with_retry, hsigned, Bool.false_eq_true, if_false,
      hcookie, Bool.not_true]
    have h := retry_loop_no_optin env (env.maxRetriesCfg.getD 3) hno hAllFail
      (env.maxRetriesCfg.getD 3) 0 ((get_cookie_resolution env).cookie.getD "")
      (get_cookie_resolution env).source none []
      (get_cookie_resolution env).saved 0
    exact ⟨h.1, by rw [h.2.2.1]; omega, h.2.2.2⟩
  · intro cat msg c hopt hsigned hcookie hfail hcloud hbudget
    simp only [execute_with_retry, hsigned, Bool.false_eq_true, if_false,
      hcookie, Bool.not_true]
    obtain ⟨r, hr⟩ : ∃ r, env.maxRetriesCfg.getD 3 = r + 1 :=
      ⟨env.maxRetriesCfg.getD 3 - 1, by omega⟩
    rw [hr]
    have hcond : (decide (0 < env.maxRetriesCfg.getD 3 - 1)
        && (env.useCookieCloud && env.clientPresent)) = true := by
      rw [hopt, Bool.and_true]
      exact decide_eq_true hbudget
    rw [hr] at hcond
    simp only [retry_loop, hfail, hcond, if_true, hcloud]
    by_cases htr : cookieTruthy c = true
    · simp only [htr, if_true]
      obtain ⟨suffix, hs⟩ := retry_loop_calls_extend env (r + 1) r 1
        (c.getD "") "云端" (some msg) ([] ++ [(0, cat)]) _ 1
      rw [hs]
      simp
    · simp only [htr, Bool.false_eq_true, if_false]
      simp

/-- Environment of the C1 counterexample: the target opts into CookieCloud,
attempt 0 fails with a connectivity-category SignInError (the generic
"unknown error" wrapper of `execute`), the cloud then returns a fresh
cookie and attempt 1 succeeds. -/
def c1env : RetryEnv where
  hasSignedInToday := false
  maxRetriesCfg := none
  useCookieCloud := true
  clientPresent := true
  dbCookie := some "c0"
  initialCloud := .returns none
  entryCookie := none
  attempts := fun n =>
    if n == 0 then .err "connectivity" "签到时发生未知错误: timeout"
    else .ok "签到成功"
  cloudCalls := fun _ => .returns (some "c1")

/-- Environment of the C1 witness's no-opt-in half: CookieCloud disabled,
every attempt fails. -/
def c1envNoOpt : RetryEnv where
  hasSignedInToday := false
  maxRetriesCfg := none
  useCookieCloud := false
  clientPresent := true
  dbCookie := none
  initialCloud := .returns none
  entryCookie := some "ck"
  attempts := fun _ => .err "connectivity" "boom"
  cloudCalls := fun _ => .raisesVA

/-- C1 counterexample: attempt 0 fails with category connectivity — not
authentication — and the coordinator still force-refreshes from the cloud
before the retry (one refresh call, tagged with that category), saves the
new cookie and succeeds with it. -/
theorem execute_with_retry_refresh_cex :
    (execute_with_retry c1env).cloudRetryCalls = [(0, "connectivity")]
    ∧ "connectivity" ≠ "authentication"
    ∧ (execute_with_retry c1env).result = .success "签到成功" "云端"
    ∧ (execute_with_retry c1env).savedCookies = ["c1"]
    ∧ (execute_with_retry c1env).executeCalls = 2 := by
  decide

/-- C1 witness: without the opt-in, three failing attempts (the default
budget) produce no refresh call; with the opt-in, the refresh after a
connectivity-category failure is among the cloud calls. -/
theorem execute_with_retry_refresh_spec_witness :
    (execute_with_retry c1envNoOpt).cloudRetryCalls = []
    ∧ (execute_with_retry c1envNoOpt).executeCalls = 3
    ∧ (0, "connectivity") ∈ (execute_with_retry c1env).cloudRetryCalls :=
  ⟨((execute_with_retry_refresh_spec c1envNoOpt).1 (by decide) (by decide)
      (by decide) (fun k => ⟨"connectivity", "boom", rfl⟩)).1,
   ((execute_with_retry_refresh_spec c1envNoOpt).1 (by decide) (by decide)
      (by decide) (fun k => ⟨"connectivity", "boom", rfl⟩)).2.1,
   (execute_with_retry_refresh_spec c1env).2 "connectivity"
      "签到时发生未知错误: timeout" (some "c1") (by decide) (by decide)
      (by decide) rfl rfl (by decide)⟩
